import Mathlib

/-!
Shallow embedding of the multi-technique image-tampering detection core of
`image_tampering_detector.py` (class `ImageTamperingDetector`).

Modelling conventions:
* Python floats are modelled by exact rationals (`ℚ`); decimal literals such
  as `0.3`, `1.2`, `0.35` are exact in `ℚ`.
* The pixel-level primitives supplied by cv2 / numpy / skimage (SIFT
  keypoints, histograms, contour extraction, standard deviations requiring a
  square root, ...) are abstracted into input records carrying exactly the
  intermediate quantities the detector logic branches on; the decision logic
  of each detector (thresholds, filters, trigger conditions, score formulas,
  accumulation, defaults) is translated line by line from the source.
* A Python exception raised inside a detector body and caught by the
  detector's own `except` clause is modelled by an `exc msg` input
  constructor (`msg` is `str(e)`).
* `np.mean xs` is `xs.sum / xs.length` (exact); `np.std`, which needs a real
  square root, is carried as an abstract nonnegative input field where the
  logic consumes it.
-/

/-- `dict.get(key, default)` over the `thresholds` dict (`ℚ`-valued knobs). -/
def thrGet (thresholds : List (String × ℚ)) (key : String) (d : ℚ) : ℚ :=
  match thresholds.lookup key with
  | some v => v
  | none => d

/-- `dict.get(key, default)` over the `config` dict (Bool enable flags). -/
def cfgGet (config : List (String × Bool)) (key : String) (d : Bool) : Bool :=
  match config.lookup key with
  | some v => v
  | none => d

/-- `np.mean` on a rational list (the source only applies it to nonempty
lists; `ℚ` division by zero is 0). -/
def npMean (xs : List ℚ) : ℚ := xs.sum / (xs.length : ℚ)

/-- Does `hay` start with `needle`? (helper for substring containment). -/
def listStartsWith : List Char → List Char → Bool
  | [], _ => true
  | _ :: _, [] => false
  | a :: as, b :: bs => a == b && listStartsWith as bs

/-- Is `needle` a contiguous sublist of `hay`? -/
def listHasSub (needle : List Char) : List Char → Bool
  | [] => listStartsWith needle []
  | b :: bs => listStartsWith needle (b :: bs) || listHasSub needle bs

/-- `needle in hay` for Python strings (substring containment). -/
def strContains (hay needle : String) : Bool :=
  listHasSub needle.toList hay.toList

/-- Python's `str.lower()` (the tag values compared here are ASCII). -/
def strToLower (s : String) : String :=
  ⟨s.data.map Char.toLower⟩

/-- The unified shape of the per-technique result dicts that
`analyze_image` appends to `self.results['findings']`: the technique name,
the trigger flag (`suspicious` / `detected` / `inconsistent` depending on the
detector), the score and the description. -/
structure Finding where
  technique : String
  triggered : Bool
  score : ℚ
  description : String
deriving Repr, DecidableEq

/-- One entry of `result['anomalies']` / `self.results['metadata_issues']`. -/
structure MetaAnomaly where
  kind : String
  severity : String
  description : String
deriving Repr, DecidableEq

/-- `scores` as collected by `calculate_confidence` (lines 612-622): the
score of every finding with `score > 0`, then, if `metadata_issues` is
nonempty, `min(1.0, len(metadata_issues) * 0.3)` appended. -/
def collectScores (findings : List Finding) (metadata_issues : List MetaAnomaly) : List ℚ :=
  let s := (findings.filter (fun f => 0 < f.score)).map (fun f => f.score)
  if metadata_issues ≠ [] then
    s ++ [min 1 ((metadata_issues.length : ℚ) * 0.3)]
  else s

/-- `calculate_confidence` (lines 610-638): returns the pair
`(confidence_score, tampering_detected)`.  On nonempty `scores` the
confidence is `np.mean(scores)`, multiplied by 1.2 and capped at 1.0 when at
least 3 scores contributed; `tampering_detected` is set exactly when the
confidence exceeds the `forgery_confidence` threshold (default 0.35).  On an
empty score list both results are zeroed (the flag keeps its initial
`False`). -/
def calculate_confidence (thresholds : List (String × ℚ))
    (findings : List Finding) (metadata_issues : List MetaAnomaly) : ℚ × Bool :=
  let scores := collectScores findings metadata_issues
  if scores ≠ [] then
    let c0 := npMean scores
    let c1 := if 3 ≤ scores.length then min 1 (c0 * 1.2) else c0
    (c1, decide (thrGet thresholds "forgery_confidence" 0.35 < c1))
  else
    (0, false)

/-! ## Detector 1: Error Level Analysis (`error_level_analysis`, lines 107-185) -/

/-- The quantities the ELA decision logic consumes, abstracting the cv2
image pipeline: `maxDiff` is `np.max` of the histogram-equalized absolute
difference map (a `uint8` image, so a natural number ≤ 255);
`contourAreasAt t` abstracts `cv2.threshold` at level `t` followed by
`cv2.findContours` / `cv2.contourArea`, giving the contour areas of the
binary mask obtained at threshold `t`. -/
structure ElaData where
  maxDiff : ℕ
  contourAreasAt : ℚ → List ℚ

/-- Input to `error_level_analysis`: `exc msg` models an exception caught by
the detector's own handler (line 182); `unreadable` models
`cv2.imread` returning `None` for the original or the re-saved image
(line 133), an early return; `ok` is the normal path. -/
inductive ElaInput where
  | exc (msg : String)
  | unreadable
  | ok (d : ElaData)

/-- The `result` dict of `error_level_analysis`: `regions` keeps only the
areas of the significant-region records (their bounding boxes are not used by
any claim). -/
structure ElaResult where
  technique : String
  suspicious : Bool
  score : ℚ
  description : String
  regions : List ℚ
deriving Repr, DecidableEq

def ElaResult.toFinding (r : ElaResult) : Finding :=
  ⟨r.technique, r.suspicious, r.score, r.description⟩

/-- `error_level_analysis` (lines 107-185).  Thresholds the equalized
difference map at `thresholds.get('ela_threshold', 25)`, keeps contour areas
strictly greater than 100, triggers when `max_diff > 30` and a significant
region exists, with `score = min(1.0, max_diff / 100.0)`. -/
def error_level_analysis (thresholds : List (String × ℚ)) (input : ElaInput) : ElaResult :=
  let base : ElaResult := ⟨"Error Level Analysis", false, 0, "", []⟩
  match input with
  | .exc msg => { base with description := "ELA analysis failed: " ++ msg }
  | .unreadable => base
  | .ok d =>
    let threshold := thrGet thresholds "ela_threshold" 25
    let significant_regions := (d.contourAreasAt threshold).filter (fun area => 100 < area)
    if 30 < d.maxDiff ∧ significant_regions ≠ [] then
      { base with
          suspicious := true
          score := min 1 ((d.maxDiff : ℚ) / 100)
          regions := significant_regions
          -- the f-string's numeric formatting is abstracted to `toString`
          description := "Detected " ++ toString significant_regions.length ++
            " regions with inconsistent compression levels. Max difference: " ++
            toString d.maxDiff }
    else
      { base with description := "No significant compression anomalies detected" }

/-! ## Metadata analysis (`analyze_metadata`, lines 187-290) -/

/-- Outcome of the `piexif.load` probe (lines 262-278): `allEmpty` models
`not exif_dict or all(not v for v in exif_dict.values())`, `invalid` models
the inner `except` branch, `hasData` the remaining case. -/
inductive PiexifOutcome where
  | allEmpty
  | invalid
  | hasData
deriving Repr, DecidableEq

/-- Input to `analyze_metadata`: `exc msg` is an exception caught by the
outer handler (line 283); `ok tags piexifRes` carries the EXIF tags
extracted by `exifread.process_file` as name/value pairs together with the
`piexif` probe outcome.  (The GPS check, lines 256-259, only records
presence in the metadata dict and produces no anomaly; it is omitted.) -/
inductive MetaInput where
  | exc (msg : String)
  | ok (tags : List (String × String)) (piexifRes : PiexifOutcome)

structure MetaResult where
  technique : String
  anomalies : List MetaAnomaly
  score : ℚ
deriving Repr, DecidableEq

def editingToolsList : List String :=
  ["photoshop", "gimp", "paint.net", "lightroom", "pixlr", "affinity", "corel"]

def expectedTagsList : List String :=
  ["Image Make", "Image Model", "Image DateTime", "EXIF DateTimeOriginal", "Image Software"]

/-- `analyze_metadata` (lines 187-290): flags missing expected tags (> 3),
editing software in the software tag, differing DateTime tags, and
stripped/invalid piexif data; `score = min(1.0, anomaly_count * 0.25)`.  On
an exception the single `Error` anomaly is recorded and the score keeps its
initial 0. -/
def analyze_metadata (input : MetaInput) : MetaResult :=
  match input with
  | .exc msg =>
    ⟨"Metadata Analysis", [⟨"Error", "low", "Metadata extraction error: " ++ msg⟩], 0⟩
  | .ok tags piexifRes =>
    let missing_tags := expectedTagsList.filter (fun t => (tags.lookup t).isNone)
    let a1 : List MetaAnomaly :=
      if 3 < missing_tags.length then
        [⟨"Missing Metadata", "medium",
          "Missing " ++ toString missing_tags.length ++ " expected EXIF tags"⟩]
      else []
    let a2 : List MetaAnomaly :=
      match tags.lookup "Image Software" with
      | some sw =>
        let software := strToLower sw
        if editingToolsList.any (fun tool => strContains software tool) then
          [⟨"Editing Software Detected", "high", "Image edited with: " ++ software⟩]
        else []
      | none => []
    let a3 : List MetaAnomaly :=
      match tags.lookup "Image DateTime", tags.lookup "EXIF DateTimeOriginal" with
      | some d1, some d2 =>
        if d1 ≠ d2 then
          [⟨"Date Inconsistency", "medium", "DateTime and DateTimeOriginal do not match"⟩]
        else []
      | _, _ => []
    let a4 : List MetaAnomaly :=
      match piexifRes with
      | .allEmpty => [⟨"Stripped Metadata", "high", "EXIF data appears to be stripped or missing"⟩]
      | .invalid => [⟨"Invalid Metadata", "high", "EXIF data is corrupted or invalid"⟩]
      | .hasData => []
    let anomalies := a1 ++ a2 ++ a3 ++ a4
    ⟨"Metadata Analysis", anomalies, min 1 ((anomalies.length : ℚ) * 0.25)⟩

/-! ## Detector 2: Copy-move forgery (`detect_copy_move`, lines 292-342) -/

/-- One element of `bf.knnMatch(descriptors, descriptors, k=2)`: the best
and second-best descriptor distances, the matched keypoint indices and their
pixel coordinates. -/
structure CmMatch where
  distM : ℚ
  distN : ℚ
  queryIdx : ℕ
  trainIdx : ℕ
  pt1 : ℚ × ℚ
  pt2 : ℚ × ℚ
deriving Repr, DecidableEq

/-- The quantities `detect_copy_move` consumes: whether SIFT returned
descriptors, the keypoint count, and the k=2 self-match list. -/
structure CmData where
  hasDescriptors : Bool
  keypointCount : ℕ
  matchPairs : List CmMatch
deriving Repr, DecidableEq

inductive CmInput where
  | exc (msg : String)
  | ok (d : CmData)

structure CmResult where
  technique : String
  detected : Bool
  score : ℚ
  -- the dict key 'matches' (a reserved word here)
  matchCount : ℕ
  description : String
deriving Repr, DecidableEq

def CmResult.toFinding (r : CmResult) : Finding :=
  ⟨r.technique, r.detected, r.score, r.description⟩

/-- Squared Euclidean distance between two matched points; the source
compares `sqrt(dx² + dy²) > 50`, which (both sides nonnegative) is
equivalent to `dx² + dy² > 2500`, avoiding a square root on `ℚ`. -/
def sqDist (p q : ℚ × ℚ) : ℚ := (p.1 - q.1) ^ 2 + (p.2 - q.2) ^ 2

/-- `detect_copy_move` (lines 292-342): early "insufficient features" return
when descriptors are missing or fewer than 10 keypoints; otherwise keeps
pairs passing the 0.7 ratio test, not self-matching, and more than 50 pixels
apart; triggers when more than 20 survive, `score = min(1.0, n / 100.0)`. -/
def detect_copy_move (input : CmInput) : CmResult :=
  let base : CmResult := ⟨"Copy-Move Forgery Detection", false, 0, 0, ""⟩
  match input with
  | .exc msg => { base with description := "Copy-move detection error: " ++ msg }
  | .ok d =>
    if d.hasDescriptors = false ∨ d.keypointCount < 10 then
      { base with description := "Insufficient features for copy-move detection" }
    else
      let similar_matches := d.matchPairs.filter (fun m =>
        m.distM < 0.7 * m.distN ∧ m.queryIdx ≠ m.trainIdx ∧ 2500 < sqDist m.pt1 m.pt2)
      if 20 < similar_matches.length then
        { base with
            detected := true
            matchCount := similar_matches.length
            score := min 1 ((similar_matches.length : ℚ) / 100)
            description := "Detected " ++ toString similar_matches.length ++
              " suspicious feature matches suggesting copy-move forgery" }
      else
        { base with description := "No copy-move forgery detected" }

/-! ## Detector 3: Noise patterns (`analyze_noise_patterns`, lines 344-388) -/

/-- The quantities the noise logic consumes: the per-64×64-block variances
of the noise residual, and `np.std` of that list (`stdVar`, abstract since
it needs a real square root; it is nonnegative for any actual input). -/
structure NoiseData where
  blockVariances : List ℚ
  stdVar : ℚ
deriving Repr, DecidableEq

inductive NoiseInput where
  | exc (msg : String)
  | ok (d : NoiseData)

structure NoiseResult where
  technique : String
  inconsistent : Bool
  score : ℚ
  description : String
deriving Repr, DecidableEq

def NoiseResult.toFinding (r : NoiseResult) : Finding :=
  ⟨r.technique, r.inconsistent, r.score, r.description⟩

/-- `analyze_noise_patterns` (lines 344-388): with a nonempty block list,
triggers when `std_var > mean_var * 0.5`, with
`score = min(1.0, std_var / (mean_var + 1e-6) * 0.3)`.  With an empty block
list (image smaller than one 64×64 block) the initial result — description
included — is returned unchanged. -/
def analyze_noise_patterns (input : NoiseInput) : NoiseResult :=
  let base : NoiseResult := ⟨"Noise Pattern Analysis", false, 0, ""⟩
  match input with
  | .exc msg => { base with description := "Noise analysis error: " ++ msg }
  | .ok d =>
    if 0 < d.blockVariances.length then
      let mean_var := npMean d.blockVariances
      if mean_var * 0.5 < d.stdVar then
        { base with
            inconsistent := true
            score := min 1 (d.stdVar / (mean_var + 1 / 1000000) * 0.3)
            description := "Inconsistent noise patterns detected" }
      else
        { base with description := "Noise patterns appear consistent" }
    else base

/-! ## Detector 4: Double JPEG compression (`detect_double_jpeg`, lines 390-431) -/

/-- The quantities the double-JPEG logic consumes: the indices of the local
maxima of the 100-bin DCT-coefficient histogram, and `np.std` of the
inter-peak spacings (abstract; nonnegative for any actual input). -/
structure JpegData where
  peaks : List ℕ
  stdDistance : ℚ
deriving Repr, DecidableEq

inductive JpegInput where
  | exc (msg : String)
  | ok (d : JpegData)

structure JpegResult where
  technique : String
  suspicious : Bool
  score : ℚ
  description : String
deriving Repr, DecidableEq

def JpegResult.toFinding (r : JpegResult) : Finding :=
  ⟨r.technique, r.suspicious, r.score, r.description⟩

/-- `detect_double_jpeg` (lines 390-431): triggers when more than 5 peaks
exist, the spacing list is nonempty, and its standard deviation is below 5;
fixed score 0.7.  When not suspicious the description is set to the negative
message (line 425-426). -/
def detect_double_jpeg (input : JpegInput) : JpegResult :=
  let base : JpegResult := ⟨"Double JPEG Detection", false, 0, ""⟩
  match input with
  | .exc msg => { base with description := "JPEG analysis error: " ++ msg }
  | .ok d =>
    if 5 < d.peaks.length ∧ 0 < d.peaks.length - 1 ∧ d.stdDistance < 5 then
      { base with
          suspicious := true
          score := 0.7
          description := "Double JPEG compression detected. Found " ++
            toString d.peaks.length ++ " periodic peaks" }
    else
      { base with description := "No double JPEG compression detected" }

/-! ## Detector 5: Splicing (`detect_splicing`, lines 433-478) -/

/-- The quantities the splicing logic consumes: per-32×32-block mean
lightness values and `np.std` of that list (abstract; nonnegative for any
actual input). -/
structure SplicingData where
  lightingValues : List ℚ
  stdLighting : ℚ
deriving Repr, DecidableEq

inductive SplicingInput where
  | exc (msg : String)
  | ok (d : SplicingData)

structure SplicingResult where
  technique : String
  detected : Bool
  score : ℚ
  description : String
deriving Repr, DecidableEq

def SplicingResult.toFinding (r : SplicingResult) : Finding :=
  ⟨r.technique, r.detected, r.score, r.description⟩

/-- `detect_splicing` (lines 433-478): with a nonempty block list computes
the coefficient of variation `std / (mean + 1e-6)` of block lightness,
triggers when it exceeds 0.3, `score = min(1.0, cv)`.  With an empty block
list the initial result is returned unchanged (empty description). -/
def detect_splicing (input : SplicingInput) : SplicingResult :=
  let base : SplicingResult := ⟨"Splicing Detection", false, 0, ""⟩
  match input with
  | .exc msg => { base with description := "Splicing detection error: " ++ msg }
  | .ok d =>
    if 0 < d.lightingValues.length then
      let mean_lighting := npMean d.lightingValues
      let coefficient_of_variation := d.stdLighting / (mean_lighting + 1 / 1000000)
      if 0.3 < coefficient_of_variation then
        { base with
            detected := true
            score := min 1 coefficient_of_variation
            description := "Lighting inconsistencies detected" }
      else
        { base with description := "Lighting appears consistent" }
    else base

/-! ## Detector 6: AI-generated images (`detect_ai_generated`, lines 480-563) -/

/-- View of the EXIF tags the AI detector consults: the software tag value
(if present) and presence of the camera make / model tags. -/
structure AiTags where
  software : Option String
  hasMake : Bool
  hasModel : Bool
deriving Repr, DecidableEq

/-- The quantities the AI-detection logic consumes: Laplacian variance,
LBP-histogram uniformity, residual noise standard deviation, and the EXIF
view (`none` models the inner `except: pass` at line 548-549). -/
structure AiData where
  laplacianVar : ℚ
  uniformity : ℚ
  noiseStd : ℚ
  exif : Option AiTags
deriving Repr, DecidableEq

inductive AiInput where
  | exc (msg : String)
  | ok (d : AiData)

structure AiResult where
  technique : String
  detected : Bool
  score : ℚ
  description : String
  indicators : List String
deriving Repr, DecidableEq

def AiResult.toFinding (r : AiResult) : Finding :=
  ⟨r.technique, r.detected, r.score, r.description⟩

def aiSoftwareList : List String :=
  ["midjourney", "stable diffusion", "dall-e", "dalle", "ai", "gan", "neural",
   "synthetic", "generated"]

/-- Lines 536-542 of `detect_ai_generated`: the software tag matching a
known AI-tool name contributes +0.4 and an indicator (the `break` makes the
increment fire at most once, rendered as a single `if any`). -/
def aiSwPart : Option String → ℚ × List String
  | some s =>
    let software := strToLower s
    if aiSoftwareList.any (fun tool => strContains software tool) then
      (0.4, ["AI software detected: " ++ software])
    else (0, [])
  | none => (0, [])

/-- Lines 544-547 of `detect_ai_generated`: camera make and model tags both
missing contributes +0.15 and an indicator.  In the source this `if` is not
guarded by the AI-software check above. -/
def aiCamPart (t : AiTags) : ℚ × List String :=
  if t.hasMake = false ∧ t.hasModel = false then
    (0.15, ["Missing camera metadata (common in AI images)"])
  else (0, [])

/-- The whole EXIF block of `detect_ai_generated` (lines 528-549): the sum
of the two independent metadata contributions, or nothing when the inner
`try` failed (`except: pass`). -/
def aiExifPart : Option AiTags → ℚ × List String
  | none => (0, [])
  | some t =>
    ((aiSwPart t.software).1 + (aiCamPart t).1, (aiSwPart t.software).2 ++ (aiCamPart t).2)

/-- The accumulated `result['score']` of `detect_ai_generated` before the
final clamp (lines 499-549): the four additive signals in source order. -/
def aiScoreRaw (d : AiData) : ℚ :=
  (if d.laplacianVar < 50 then (0.3 : ℚ) else 0) +
  (if 0.15 < d.uniformity then (0.3 : ℚ) else 0) +
  (if d.noiseStd < 5 then (0.25 : ℚ) else 0) +
  (aiExifPart d.exif).1

/-- The accumulated `result['indicators']` of `detect_ai_generated`. -/
def aiIndicators (d : AiData) : List String :=
  (if d.laplacianVar < 50 then ["Unnaturally smooth textures"] else []) ++
  (if 0.15 < d.uniformity then ["Repetitive patterns detected (AI artifact)"] else []) ++
  (if d.noiseStd < 5 then ["Lack of natural camera noise"] else []) ++
  (aiExifPart d.exif).2

/-- `detect_ai_generated` (lines 480-563): accumulates four additive
signals — smoothness (+0.3), repetitive texture (+0.3), missing sensor noise
(+0.25), and the EXIF signals: an AI-tool name in the software tag (+0.4)
and, independently of it, missing camera make AND model tags (+0.15) — then
clamps with `min(1.0, score)` (line 552) and triggers when the clamped score
exceeds `thresholds.get('ai_generated_threshold', 0.5)`.  The result dict
carries no severity field. -/
def detect_ai_generated (thresholds : List (String × ℚ)) (input : AiInput) : AiResult :=
  let base : AiResult := ⟨"AI-Generated Image Detection", false, 0, "", []⟩
  match input with
  | .exc msg => { base with description := "AI detection error: " ++ msg }
  | .ok d =>
    let score := min 1 (aiScoreRaw d)
    let indicators := aiIndicators d
    if thrGet thresholds "ai_generated_threshold" 0.5 < score then
      { base with
          detected := true
          score := score
          indicators := indicators
          description := "AI-GENERATED IMAGE DETECTED! Indicators: " ++
            String.intercalate ", " indicators }
    else
      { base with
          score := score
          indicators := indicators
          description := "No strong AI-generation indicators" }

/-! ## Detector 7: Frequency domain (`analyze_frequency_domain`, lines 565-608) -/

/-- The quantities the frequency-domain logic consumes: mean and standard
deviation of the central quadrant of the log magnitude spectrum. -/
structure FreqData where
  meanMag : ℚ
  stdMag : ℚ
deriving Repr, DecidableEq

inductive FreqInput where
  | exc (msg : String)
  | ok (d : FreqData)

structure FreqResult where
  technique : String
  suspicious : Bool
  detected : Bool
  score : ℚ
  severity : String
  description : String
deriving Repr, DecidableEq

def FreqResult.toFinding (r : FreqResult) : Finding :=
  ⟨r.technique, r.suspicious, r.score, r.description⟩

/-- `analyze_frequency_domain` (lines 565-608): suspicious when
`std < mean * 0.3` or `std > mean * 1.5`; fixed score 0.6; severity "high"
in the over-irregular case, "medium" otherwise; "low" when normal, "info"
on an exception (initial severity is "medium"). -/
def analyze_frequency_domain (input : FreqInput) : FreqResult :=
  let base : FreqResult := ⟨"Frequency Domain Analysis", false, false, 0, "medium", ""⟩
  match input with
  | .exc msg =>
    { base with description := "Frequency analysis error: " ++ msg, severity := "info" }
  | .ok d =>
    if d.stdMag < d.meanMag * 0.3 ∨ d.meanMag * 1.5 < d.stdMag then
      { base with
          suspicious := true
          detected := true
          score := 0.6
          severity := if d.meanMag * 1.5 < d.stdMag then "high" else "medium"
          description := "Abnormal frequency patterns detected (editing/splicing indicators)" }
    else
      { base with description := "Frequency analysis normal", severity := "low" }

/-! ## The orchestrator (`analyze_image`, lines 32-105) -/

/-- `temp_path` at line 126 of `error_level_analysis`: the quality-90
re-encode is written to this fixed relative path, independent of the input
image, and read back from it. -/
def ela_temp_path (_image_path : String) : String := "temp/ela_temp.jpg"

/-- One analysis call's worth of inputs: whether `PIL.Image.open` succeeds
(its exception is the only one that reaches the outer handler at line 100;
`cv2.imread` returns `None` instead of raising), the message of that
exception, and the per-detector abstract inputs. -/
structure PipelineInput where
  loadOk : Bool
  loadErrMsg : String
  elaIn : ElaInput
  metaIn : MetaInput
  cmIn : CmInput
  noiseIn : NoiseInput
  jpegIn : JpegInput
  splicingIn : SplicingInput
  aiIn : AiInput
  freqIn : FreqInput

/-- The `self.results` dict returned by `analyze_image`. -/
structure AnalysisResults where
  tampering_detected : Bool
  confidence_score : ℚ
  techniques_used : List String
  findings : List Finding
  metadata_issues : List MetaAnomaly
  error : Option String
deriving Repr, DecidableEq

/-- The initial `self.results` built in `__init__` (lines 23-30). -/
def initResults : AnalysisResults := ⟨false, 0, [], [], [], none⟩

/-- The `techniques_used` list built by `analyze_image` (lines 41-90):
techniques 1-5 are appended only when `config.get(flag, True)` holds;
splicing, AI-generation and frequency-domain are appended unconditionally
(lines 76-92 have no flag check). -/
def pipelineTechniques (config : List (String × Bool)) : List String :=
  (if cfgGet config "enable_ela" true then ["Error Level Analysis"] else []) ++
  (if cfgGet config "enable_metadata" true then ["Metadata Analysis"] else []) ++
  (if cfgGet config "enable_copy_move" true then ["Copy-Move Detection"] else []) ++
  (if cfgGet config "enable_noise_analysis" true then ["Noise Analysis"] else []) ++
  (if cfgGet config "enable_double_jpeg" true then ["JPEG Compression Analysis"] else []) ++
  ["Splicing Detection", "AI-Generated Detection", "Frequency Domain Analysis"]

/-- The `findings` list built by `analyze_image`: a detector's result dict
is appended exactly when the technique ran and its trigger flag
(`suspicious` / `detected` / `inconsistent`) is set, in source order.  The
metadata result is never appended here. -/
def pipelineFindings (config : List (String × Bool)) (thresholds : List (String × ℚ))
    (p : PipelineInput) : List Finding :=
  (if cfgGet config "enable_ela" true ∧ (error_level_analysis thresholds p.elaIn).suspicious
    then [(error_level_analysis thresholds p.elaIn).toFinding] else []) ++
  (if cfgGet config "enable_copy_move" true ∧ (detect_copy_move p.cmIn).detected
    then [(detect_copy_move p.cmIn).toFinding] else []) ++
  (if cfgGet config "enable_noise_analysis" true ∧ (analyze_noise_patterns p.noiseIn).inconsistent
    then [(analyze_noise_patterns p.noiseIn).toFinding] else []) ++
  (if cfgGet config "enable_double_jpeg" true ∧ (detect_double_jpeg p.jpegIn).suspicious
    then [(detect_double_jpeg p.jpegIn).toFinding] else []) ++
  (if (detect_splicing p.splicingIn).detected
    then [(detect_splicing p.splicingIn).toFinding] else []) ++
  (if (detect_ai_generated thresholds p.aiIn).detected
    then [(detect_ai_generated thresholds p.aiIn).toFinding] else []) ++
  (if (analyze_frequency_domain p.freqIn).suspicious
    then [(analyze_frequency_domain p.freqIn).toFinding] else [])

/-- The `metadata_issues` list: extended by the metadata anomalies when the
metadata technique is enabled (lines 49-53). -/
def pipelineMetaIssues (config : List (String × Bool)) (p : PipelineInput) : List MetaAnomaly :=
  if cfgGet config "enable_metadata" true then (analyze_metadata p.metaIn).anomalies else []

/-- The successful branch of `analyze_image` (the body of the `try`): run
the battery, then `calculate_confidence` (line 95). -/
def analyze_image_run (config : List (String × Bool)) (thresholds : List (String × ℚ))
    (p : PipelineInput) : AnalysisResults :=
  let findings := pipelineFindings config thresholds p
  let metadata_issues := pipelineMetaIssues config p
  let conf := calculate_confidence thresholds findings metadata_issues
  ⟨conf.2, conf.1, pipelineTechniques config, findings, metadata_issues, none⟩

/-- `analyze_image` (lines 32-105).  The sequential mutation of
`self.results` is rendered as the equivalent ordered concatenation (each
technique appends its own entries once, in source order).  If
`PIL.Image.open` raises — the only statement in the `try` block whose
exception is not swallowed by an inner handler (`cv2.imread` returns `None`
instead of raising) — the outer handler records `str(e)` under `error` and
returns the still-initial results. -/
def analyze_image (config : List (String × Bool)) (thresholds : List (String × ℚ))
    (p : PipelineInput) : AnalysisResults :=
  if p.loadOk then
    analyze_image_run config thresholds p
  else
    { initResults with error := some p.loadErrMsg }

/-! ## Helper lemmas -/

theorem npMean_nonneg {xs : List ℚ} (h : ∀ x ∈ xs, 0 ≤ x) : 0 ≤ npMean xs := by
  unfold npMean
  exact div_nonneg (List.sum_nonneg h) (by positivity)

theorem npMean_le_one {xs : List ℚ} (hne : xs ≠ []) (h : ∀ x ∈ xs, x ≤ 1) :
    npMean xs ≤ 1 := by
  unfold npMean
  have hlen : 0 < (xs.length : ℚ) := by
    exact_mod_cast List.length_pos.mpr hne
  rw [div_le_one hlen]
  calc xs.sum ≤ xs.length • (1 : ℚ) := List.sum_le_card_nsmul xs 1 h
    _ = (xs.length : ℚ) := by simp

theorem min_one_bounds {x : ℚ} (hx : 0 ≤ x) : 0 ≤ min 1 x ∧ min 1 x ≤ 1 :=
  ⟨le_min zero_le_one hx, min_le_left _ _⟩

theorem mem_ite_singleton_cond {α : Type} {c : Prop} [Decidable c] {a x : α}
    (h : x ∈ (if c then [a] else [])) : x = a ∧ c := by
  split at h
  · exact ⟨by simpa using h, by assumption⟩
  · simp at h

theorem string_append_ne_empty {a b : String} (ha : a ≠ "") : a ++ b ≠ "" := by
  rcases a with ⟨da⟩
  rcases b with ⟨db⟩
  intro h
  apply ha
  have hd : da ++ db = [] := congrArg String.data h
  rcases List.append_eq_nil.mp hd with ⟨h1, _⟩
  subst h1
  rfl

/-- Well-formedness of a noise input: the abstract standard deviation and
block variances produced by numpy are nonnegative. -/
def NoiseInput.Wf : NoiseInput → Prop
  | .exc _ => True
  | .ok d => 0 ≤ d.stdVar ∧ ∀ v ∈ d.blockVariances, 0 ≤ v

/-- Well-formedness of a splicing input: the abstract standard deviation
and per-block mean lightness values produced by numpy are nonnegative. -/
def SplicingInput.Wf : SplicingInput → Prop
  | .exc _ => True
  | .ok d => 0 ≤ d.stdLighting ∧ ∀ v ∈ d.lightingValues, 0 ≤ v

/-- Well-formed pipeline input: the two abstract statistics records carry
nonnegative values (as any actual numpy computation yields). -/
def PipelineInput.Wf (p : PipelineInput) : Prop :=
  NoiseInput.Wf p.noiseIn ∧ SplicingInput.Wf p.splicingIn

theorem ela_score_bounds (thresholds : List (String × ℚ)) (input : ElaInput) :
    0 ≤ (error_level_analysis thresholds input).score ∧
      (error_level_analysis thresholds input).score ≤ 1 := by
  cases input with
  | exc msg => simp [error_level_analysis]
  | unreadable => simp [error_level_analysis]
  | ok d =>
    simp only [error_level_analysis]
    split
    · exact min_one_bounds (by positivity)
    · simp

theorem metadata_score_bounds (input : MetaInput) :
    0 ≤ (analyze_metadata input).score ∧ (analyze_metadata input).score ≤ 1 := by
  cases input with
  | exc msg => simp [analyze_metadata]
  | ok tags piexifRes =>
    simp only [analyze_metadata]
    exact min_one_bounds (by positivity)

theorem cm_score_bounds (input : CmInput) :
    0 ≤ (detect_copy_move input).score ∧ (detect_copy_move input).score ≤ 1 := by
  cases input with
  | exc msg => simp [detect_copy_move]
  | ok d =>
    simp only [detect_copy_move]
    split
    · simp
    · split
      · exact min_one_bounds (by positivity)
      · simp

theorem noise_score_bounds (input : NoiseInput) (hw : input.Wf) :
    0 ≤ (analyze_noise_patterns input).score ∧ (analyze_noise_patterns input).score ≤ 1 := by
  cases input with
  | exc msg => simp [analyze_noise_patterns]
  | ok d =>
    obtain ⟨hstd, hvar⟩ := hw
    have hmean : 0 ≤ npMean d.blockVariances := npMean_nonneg hvar
    simp only [analyze_noise_patterns]
    split
    · split
      · refine min_one_bounds ?_
        have hden : (0 : ℚ) < npMean d.blockVariances + 1 / 1000000 := by positivity
        positivity
      · simp
    · simp

theorem jpeg_score_bounds (input : JpegInput) :
    0 ≤ (detect_double_jpeg input).score ∧ (detect_double_jpeg input).score ≤ 1 := by
  cases input with
  | exc msg => simp [detect_double_jpeg]
  | ok d =>
    simp only [detect_double_jpeg]
    split <;> norm_num

theorem splicing_score_bounds (input : SplicingInput) (hw : input.Wf) :
    0 ≤ (detect_splicing input).score ∧ (detect_splicing input).score ≤ 1 := by
  cases input with
  | exc msg => simp [detect_splicing]
  | ok d =>
    obtain ⟨hstd, hvals⟩ := hw
    have hmean : 0 ≤ npMean d.lightingValues := npMean_nonneg hvals
    simp only [detect_splicing]
    split
    · split
      · refine min_one_bounds ?_
        have hden : (0 : ℚ) < npMean d.lightingValues + 1 / 1000000 := by positivity
        positivity
      · simp
    · simp

theorem aiSwPart_nonneg (o : Option String) : 0 ≤ (aiSwPart o).1 := by
  cases o with
  | none => norm_num [aiSwPart]
  | some s =>
    simp only [aiSwPart]
    split <;> norm_num

theorem aiCamPart_nonneg (t : AiTags) : 0 ≤ (aiCamPart t).1 := by
  simp only [aiCamPart]
  split <;> norm_num

theorem aiExifPart_nonneg (o : Option AiTags) : 0 ≤ (aiExifPart o).1 := by
  cases o with
  | none => norm_num [aiExifPart]
  | some t =>
    simp only [aiExifPart]
    exact add_nonneg (aiSwPart_nonneg t.software) (aiCamPart_nonneg t)

theorem aiScoreRaw_nonneg (d : AiData) : 0 ≤ aiScoreRaw d := by
  unfold aiScoreRaw
  have h1 : (0 : ℚ) ≤ if d.laplacianVar < 50 then (0.3 : ℚ) else 0 := by split <;> norm_num
  have h2 : (0 : ℚ) ≤ if 0.15 < d.uniformity then (0.3 : ℚ) else 0 := by split <;> norm_num
  have h3 : (0 : ℚ) ≤ if d.noiseStd < 5 then (0.25 : ℚ) else 0 := by split <;> norm_num
  have h4 : (0 : ℚ) ≤ (aiExifPart d.exif).1 := aiExifPart_nonneg d.exif
  exact add_nonneg (add_nonneg (add_nonneg h1 h2) h3) h4

theorem ai_score_bounds (thresholds : List (String × ℚ)) (input : AiInput) :
    0 ≤ (detect_ai_generated thresholds input).score ∧
      (detect_ai_generated thresholds input).score ≤ 1 := by
  cases input with
  | exc msg => simp [detect_ai_generated]
  | ok d =>
    have hsum := aiScoreRaw_nonneg d
    simp only [detect_ai_generated]
    split
    · exact min_one_bounds hsum
    · exact min_one_bounds hsum

theorem freq_score_bounds (input : FreqInput) :
    0 ≤ (analyze_frequency_domain input).score ∧
      (analyze_frequency_domain input).score ≤ 1 := by
  cases input with
  | exc msg => simp [analyze_frequency_domain]
  | ok d =>
    simp only [analyze_frequency_domain]
    split <;> norm_num

/-- Any member of the findings list is one of the seven detector results,
converted by `toFinding`, with its trigger flag set. -/
theorem mem_pipelineFindings {config : List (String × Bool)}
    {thresholds : List (String × ℚ)} {p : PipelineInput} {f : Finding}
    (hf : f ∈ pipelineFindings config thresholds p) :
    (f = (error_level_analysis thresholds p.elaIn).toFinding ∧
      (error_level_analysis thresholds p.elaIn).suspicious = true) ∨
    (f = (detect_copy_move p.cmIn).toFinding ∧ (detect_copy_move p.cmIn).detected = true) ∨
    (f = (analyze_noise_patterns p.noiseIn).toFinding ∧
      (analyze_noise_patterns p.noiseIn).inconsistent = true) ∨
    (f = (detect_double_jpeg p.jpegIn).toFinding ∧
      (detect_double_jpeg p.jpegIn).suspicious = true) ∨
    (f = (detect_splicing p.splicingIn).toFinding ∧
      (detect_splicing p.splicingIn).detected = true) ∨
    (f = (detect_ai_generated thresholds p.aiIn).toFinding ∧
      (detect_ai_generated thresholds p.aiIn).detected = true) ∨
    (f = (analyze_frequency_domain p.freqIn).toFinding ∧
      (analyze_frequency_domain p.freqIn).suspicious = true) := by
  unfold pipelineFindings at hf
  simp only [List.mem_append] at hf
  rcases hf with ((((((h | h) | h) | h) | h) | h) | h)
  · exact Or.inl ⟨(mem_ite_singleton_cond h).1, (mem_ite_singleton_cond h).2.2⟩
  · exact Or.inr (Or.inl ⟨(mem_ite_singleton_cond h).1, (mem_ite_singleton_cond h).2.2⟩)
  · exact Or.inr (Or.inr (Or.inl ⟨(mem_ite_singleton_cond h).1, (mem_ite_singleton_cond h).2.2⟩))
  · exact Or.inr (Or.inr (Or.inr (Or.inl
      ⟨(mem_ite_singleton_cond h).1, (mem_ite_singleton_cond h).2.2⟩)))
  · exact Or.inr (Or.inr (Or.inr (Or.inr (Or.inl
      ⟨(mem_ite_singleton_cond h).1, (mem_ite_singleton_cond h).2⟩))))
  · exact Or.inr (Or.inr (Or.inr (Or.inr (Or.inr (Or.inl
      ⟨(mem_ite_singleton_cond h).1, (mem_ite_singleton_cond h).2⟩)))))
  · exact Or.inr (Or.inr (Or.inr (Or.inr (Or.inr (Or.inr
      ⟨(mem_ite_singleton_cond h).1, (mem_ite_singleton_cond h).2⟩)))))

/-- Every element of the collected score list lies in [0, 1] provided every
finding's score does. -/
theorem collectScores_bounds {findings : List Finding} {metadata_issues : List MetaAnomaly}
    (hf : ∀ f ∈ findings, 0 ≤ f.score ∧ f.score ≤ 1) :
    ∀ x ∈ collectScores findings metadata_issues, 0 ≤ x ∧ x ≤ 1 := by
  intro x hx
  unfold collectScores at hx
  have hbase : ∀ y ∈ (findings.filter (fun f => 0 < f.score)).map (fun f => f.score),
      0 ≤ y ∧ y ≤ 1 := by
    intro y hy
    simp only [List.mem_map, List.mem_filter] at hy
    obtain ⟨g, ⟨hg, _⟩, rfl⟩ := hy
    exact hf g hg
  split at hx
  · rcases List.mem_append.mp hx with h | h
    · exact hbase x h
    · have hx1 : x = min 1 ((metadata_issues.length : ℚ) * 0.3) := by simpa using h
      subst hx1
      exact min_one_bounds (by positivity)
  · exact hbase x hx

/-- Closed form of the confidence score: 0 on an empty score set, the mean
with the corroboration bonus on 3 or more scores, the bare mean otherwise. -/
theorem calculate_confidence_formula (thresholds : List (String × ℚ))
    (findings : List Finding) (metadata_issues : List MetaAnomaly) :
    (calculate_confidence thresholds findings metadata_issues).1 =
      if collectScores findings metadata_issues = [] then 0
      else if 3 ≤ (collectScores findings metadata_issues).length then
        min 1 (npMean (collectScores findings metadata_issues) * 1.2)
      else npMean (collectScores findings metadata_issues) := by
  simp only [calculate_confidence]
  by_cases hne : collectScores findings metadata_issues = []
  · rw [if_neg (not_not_intro hne), if_pos hne]
  · rw [if_pos hne, if_neg hne]

/-- The confidence returned by `calculate_confidence` lies in [0, 1]
provided every finding's score does. -/
theorem calculate_confidence_bounds (thresholds : List (String × ℚ))
    {findings : List Finding} {metadata_issues : List MetaAnomaly}
    (hf : ∀ f ∈ findings, 0 ≤ f.score ∧ f.score ≤ 1) :
    0 ≤ (calculate_confidence thresholds findings metadata_issues).1 ∧
      (calculate_confidence thresholds findings metadata_issues).1 ≤ 1 := by
  have hmem := @collectScores_bounds findings metadata_issues hf
  rw [calculate_confidence_formula]
  by_cases hne : collectScores findings metadata_issues = []
  · rw [if_pos hne]
    norm_num
  · rw [if_neg hne]
    have h0 : 0 ≤ npMean (collectScores findings metadata_issues) :=
      npMean_nonneg fun x hx => (hmem x hx).1
    have h1 : npMean (collectScores findings metadata_issues) ≤ 1 :=
      npMean_le_one hne fun x hx => (hmem x hx).2
    split
    · exact min_one_bounds (mul_nonneg h0 (by norm_num))
    · exact ⟨h0, h1⟩

/-- The tampering flag equals the comparison of the confidence with the
`forgery_confidence` threshold, provided the threshold is nonnegative (with
an empty score set the flag is `false` regardless of the threshold). -/
theorem calculate_confidence_flag (thresholds : List (String × ℚ))
    (findings : List Finding) (metadata_issues : List MetaAnomaly)
    (hthr : 0 ≤ thrGet thresholds "forgery_confidence" 0.35) :
    ((calculate_confidence thresholds findings metadata_issues).2 = true ↔
      thrGet thresholds "forgery_confidence" 0.35 <
        (calculate_confidence thresholds findings metadata_issues).1) := by
  simp only [calculate_confidence]
  by_cases hne : collectScores findings metadata_issues = []
  · rw [if_neg (not_not_intro hne)]
    dsimp only
    constructor
    · intro h
      exact (Bool.false_ne_true h).elim
    · intro h
      exact absurd h (not_lt.mpr hthr)
  · rw [if_pos hne]
    dsimp only
    exact decide_eq_true_iff

/-! ## Concrete inputs for counterexamples and witnesses -/

/-- A successfully loaded input on which every detector raises internally:
no finding triggers and no metadata anomaly is recorded (metadata disabled
where needed). -/
def pQuiet : PipelineInput :=
  ⟨true, "", .exc "e", .exc "e", .exc "e", .exc "e", .exc "e", .exc "e", .exc "e", .exc "e"⟩

/-- An input whose image `PIL.Image.open` cannot decode. -/
def pFail : PipelineInput :=
  { pQuiet with loadOk := false, loadErrMsg := "cannot identify image file" }

/-- A config dict disabling the metadata technique. -/
def cfgNoMeta : List (String × Bool) := [("enable_metadata", false)]

/-- A thresholds dict with a negative `forgery_confidence`. -/
def thrNeg : List (String × ℚ) := [("forgery_confidence", -1)]

/-- `analyze_image` agrees with `analyze_image_run` on a loadable input. -/
theorem analyze_image_of_loadOk (config : List (String × Bool))
    (thresholds : List (String × ℚ)) (p : PipelineInput) (hl : p.loadOk = true) :
    analyze_image config thresholds p = analyze_image_run config thresholds p := by
  simp [analyze_image, hl]

/-- With an empty collected score list the aggregator zeroes both outputs. -/
theorem calculate_confidence_empty (thresholds : List (String × ℚ))
    (findings : List Finding) (metadata_issues : List MetaAnomaly)
    (h : collectScores findings metadata_issues = []) :
    calculate_confidence thresholds findings metadata_issues = (0, false) := by
  simp only [calculate_confidence]
  rw [if_neg (not_not_intro h)]

/-! ## The claims -/

/-- **C1.** For every analysis, the confidence score equals the arithmetic
mean of the collected score set S (triggered findings with positive score,
plus the metadata contribution `min(1, anomalyCount × 0.3)` when anomalies
exist); with at least 3 elements the mean is multiplied by 1.2 and capped at
1.0, with fewer it is the mean exactly, and 0 on an empty set. -/
theorem confidence_is_mean_with_corroboration_bonus (config : List (String × Bool))
    (thresholds : List (String × ℚ)) (p : PipelineInput) :
    (analyze_image config thresholds p).confidence_score =
      if collectScores (analyze_image config thresholds p).findings
          (analyze_image config thresholds p).metadata_issues = [] then 0
      else if 3 ≤ (collectScores (analyze_image config thresholds p).findings
          (analyze_image config thresholds p).metadata_issues).length then
        min 1 (npMean (collectScores (analyze_image config thresholds p).findings
          (analyze_image config thresholds p).metadata_issues) * 1.2)
      else npMean (collectScores (analyze_image config thresholds p).findings
          (analyze_image config thresholds p).metadata_issues) := by
  cases hl : p.loadOk
  · have h : analyze_image config thresholds p = { initResults with error := some p.loadErrMsg } := by
      simp [analyze_image, hl]
    rw [h]
    simp [initResults, collectScores]
  · rw [analyze_image_of_loadOk config thresholds p hl]
    exact calculate_confidence_formula thresholds _ _

/-- **C2 (counterexample).** With `forgery_confidence` configured to −1 and
an analysis collecting no scores, the code leaves `tampering_detected`
`False` although `confidence_score = 0` exceeds the threshold: the claimed
equivalence fails as stated. -/
theorem tampering_negative_threshold_counterexample :
    ¬ ((analyze_image cfgNoMeta thrNeg pQuiet).tampering_detected = true ↔
      thrGet thrNeg "forgery_confidence" 0.35 <
        (analyze_image cfgNoMeta thrNeg pQuiet).confidence_score) := by
  intro h
  have hflag : (analyze_image cfgNoMeta thrNeg pQuiet).tampering_detected = false := rfl
  have hconf : (analyze_image cfgNoMeta thrNeg pQuiet).confidence_score = 0 := rfl
  have hthr : thrGet thrNeg "forgery_confidence" 0.35 = -1 := rfl
  rw [hflag, hconf, hthr] at h
  exact Bool.false_ne_true (h.mpr (by norm_num))

/-- **C2 (amended).** Provided the configured `forgery_confidence` threshold
is nonnegative (the default 0.35 is), `tampering_detected` holds exactly
when `confidence_score` exceeds it; and with an empty collected score set
the confidence is 0 and the flag is `False`. -/
theorem tampering_iff_confidence_above_threshold (config : List (String × Bool))
    (thresholds : List (String × ℚ)) (p : PipelineInput)
    (hthr : 0 ≤ thrGet thresholds "forgery_confidence" 0.35) :
    ((analyze_image config thresholds p).tampering_detected = true ↔
      thrGet thresholds "forgery_confidence" 0.35 <
        (analyze_image config thresholds p).confidence_score) ∧
    (collectScores (analyze_image config thresholds p).findings
        (analyze_image config thresholds p).metadata_issues = [] →
      (analyze_image config thresholds p).confidence_score = 0 ∧
      (analyze_image config thresholds p).tampering_detected = false) := by
  cases hl : p.loadOk
  · have h : analyze_image config thresholds p = { initResults with error := some p.loadErrMsg } := by
      simp [analyze_image, hl]
    rw [h]
    exact ⟨iff_of_false Bool.false_ne_true (not_lt.mpr hthr), fun _ => ⟨rfl, rfl⟩⟩
  · rw [analyze_image_of_loadOk config thresholds p hl]
    refine ⟨calculate_confidence_flag thresholds _ _ hthr, fun hS => ?_⟩
    have he := calculate_confidence_empty thresholds
      (pipelineFindings config thresholds p) (pipelineMetaIssues config p) hS
    exact ⟨congrArg Prod.fst he, congrArg Prod.snd he⟩

/-- Witness for the amended C2 at the default (empty) threshold dict. -/
theorem tampering_iff_confidence_above_threshold_witness :
    0 ≤ thrGet [] "forgery_confidence" 0.35 ∧
    ((analyze_image [] [] pQuiet).tampering_detected = true ↔
      thrGet [] "forgery_confidence" 0.35 < (analyze_image [] [] pQuiet).confidence_score) :=
  ⟨by norm_num [thrGet, List.lookup],
   (tampering_iff_confidence_above_threshold [] [] pQuiet
     (by norm_num [thrGet, List.lookup])).1⟩

/-- **C3.** Every finding's score and the final confidence lie in [0, 1],
and each producing component's returned score is already clamped into
[0, 1] (given that the abstract numpy statistics are nonnegative, as any
actual run makes them). -/
theorem all_scores_in_unit_interval (config : List (String × Bool))
    (thresholds : List (String × ℚ)) (p : PipelineInput) (hp : p.Wf) :
    (∀ f ∈ (analyze_image config thresholds p).findings, 0 ≤ f.score ∧ f.score ≤ 1) ∧
    (0 ≤ (analyze_image config thresholds p).confidence_score ∧
      (analyze_image config thresholds p).confidence_score ≤ 1) ∧
    (0 ≤ (error_level_analysis thresholds p.elaIn).score ∧
      (error_level_analysis thresholds p.elaIn).score ≤ 1) ∧
    (0 ≤ (analyze_metadata p.metaIn).score ∧ (analyze_metadata p.metaIn).score ≤ 1) ∧
    (0 ≤ (detect_copy_move p.cmIn).score ∧ (detect_copy_move p.cmIn).score ≤ 1) ∧
    (0 ≤ (analyze_noise_patterns p.noiseIn).score ∧
      (analyze_noise_patterns p.noiseIn).score ≤ 1) ∧
    (0 ≤ (detect_double_jpeg p.jpegIn).score ∧ (detect_double_jpeg p.jpegIn).score ≤ 1) ∧
    (0 ≤ (detect_splicing p.splicingIn).score ∧ (detect_splicing p.splicingIn).score ≤ 1) ∧
    (0 ≤ (detect_ai_generated thresholds p.aiIn).score ∧
      (detect_ai_generated thresholds p.aiIn).score ≤ 1) ∧
    (0 ≤ (analyze_frequency_domain p.freqIn).score ∧
      (analyze_frequency_domain p.freqIn).score ≤ 1) := by
  obtain ⟨hn, hs⟩ := hp
  have hfind : ∀ f ∈ pipelineFindings config thresholds p, 0 ≤ f.score ∧ f.score ≤ 1 := by
    intro f hf
    rcases mem_pipelineFindings hf with
      ⟨rfl, _⟩ | ⟨rfl, _⟩ | ⟨rfl, _⟩ | ⟨rfl, _⟩ | ⟨rfl, _⟩ | ⟨rfl, _⟩ | ⟨rfl, _⟩
    · exact ela_score_bounds thresholds p.elaIn
    · exact cm_score_bounds p.cmIn
    · exact noise_score_bounds p.noiseIn hn
    · exact jpeg_score_bounds p.jpegIn
    · exact splicing_score_bounds p.splicingIn hs
    · exact ai_score_bounds thresholds p.aiIn
    · exact freq_score_bounds p.freqIn
  have hAll : ∀ f ∈ (analyze_image config thresholds p).findings, 0 ≤ f.score ∧ f.score ≤ 1 := by
    cases hl : p.loadOk
    · intro f hf
      have h : analyze_image config thresholds p =
          { initResults with error := some p.loadErrMsg } := by simp [analyze_image, hl]
      rw [h] at hf
      simp [initResults] at hf
    · intro f hf
      rw [analyze_image_of_loadOk config thresholds p hl] at hf
      exact hfind f hf
  have hconf : 0 ≤ (analyze_image config thresholds p).confidence_score ∧
      (analyze_image config thresholds p).confidence_score ≤ 1 := by
    cases hl : p.loadOk
    · have h : analyze_image config thresholds p =
          { initResults with error := some p.loadErrMsg } := by simp [analyze_image, hl]
      rw [h]
      norm_num [initResults]
    · rw [analyze_image_of_loadOk config thresholds p hl]
      exact calculate_confidence_bounds thresholds hfind
  exact ⟨hAll, hconf, ela_score_bounds thresholds p.elaIn, metadata_score_bounds p.metaIn,
    cm_score_bounds p.cmIn, noise_score_bounds p.noiseIn hn, jpeg_score_bounds p.jpegIn,
    splicing_score_bounds p.splicingIn hs, ai_score_bounds thresholds p.aiIn,
    freq_score_bounds p.freqIn⟩

/-- Witness for C3 at a concrete input. -/
theorem all_scores_in_unit_interval_witness :
    0 ≤ (analyze_image [] [] pQuiet).confidence_score ∧
      (analyze_image [] [] pQuiet).confidence_score ≤ 1 :=
  (all_scores_in_unit_interval [] [] pQuiet ⟨trivial, trivial⟩).2.1

/-- **C4.** Only a failure to decode the input image yields the terminal
load-failure error (the `error` field); on a loadable input the pipeline
completes with no error no matter how the individual detectors fail, and on
a load failure the returned results are the initial ones with only the error
recorded. -/
theorem only_load_failure_is_terminal (config : List (String × Bool))
    (thresholds : List (String × ℚ)) (p : PipelineInput) :
    ((analyze_image config thresholds p).error.isSome = true ↔ p.loadOk = false) ∧
    (p.loadOk = false →
      analyze_image config thresholds p = { initResults with error := some p.loadErrMsg }) := by
  cases hl : p.loadOk
  · have h : analyze_image config thresholds p =
        { initResults with error := some p.loadErrMsg } := by simp [analyze_image, hl]
    rw [h]
    exact ⟨by simp, fun _ => rfl⟩
  · have h : (analyze_image config thresholds p).error = none := by
      rw [analyze_image_of_loadOk config thresholds p hl]
      rfl
    rw [h]
    constructor
    · simp [hl]
    · intro hfalse
      exact absurd hfalse (by decide)

/-- Witness for C4: a concrete undecodable input is the error case. -/
theorem only_load_failure_is_terminal_witness :
    (analyze_image [] [] pFail).error.isSome = true :=
  (only_load_failure_is_terminal [] [] pFail).1.mpr rfl

/-- **C5 (counterexample).** A degenerate input — an image too small to
yield a single 64×64 block, so the block-variance list is empty — makes the
noise detector return its initial result unchanged: non-triggered and
score 0, but with an **empty** description, not a human-readable
explanation. -/
theorem degenerate_noise_input_keeps_empty_description :
    (analyze_noise_patterns (.ok ⟨[], 0⟩)).inconsistent = false ∧
    (analyze_noise_patterns (.ok ⟨[], 0⟩)).score = 0 ∧
    (analyze_noise_patterns (.ok ⟨[], 0⟩)).description = "" :=
  ⟨rfl, rfl, rfl⟩

/-- **C5 (amended).** On an internal exception every detector returns a
non-triggered result with score 0 and a nonempty explanatory description,
and the pipeline completes (no error) on any loadable input regardless of
detector failures; degenerate-input early returns (such as the empty
block-variance list) are non-triggered with score 0 but may leave the
description empty. -/
theorem detector_failures_degrade_without_raising (thresholds : List (String × ℚ))
    (msg : String) :
    ((error_level_analysis thresholds (.exc msg)).suspicious = false ∧
      (error_level_analysis thresholds (.exc msg)).score = 0 ∧
      (error_level_analysis thresholds (.exc msg)).description ≠ "") ∧
    ((detect_copy_move (.exc msg)).detected = false ∧
      (detect_copy_move (.exc msg)).score = 0 ∧
      (detect_copy_move (.exc msg)).description ≠ "") ∧
    ((analyze_noise_patterns (.exc msg)).inconsistent = false ∧
      (analyze_noise_patterns (.exc msg)).score = 0 ∧
      (analyze_noise_patterns (.exc msg)).description ≠ "") ∧
    ((detect_double_jpeg (.exc msg)).suspicious = false ∧
      (detect_double_jpeg (.exc msg)).score = 0 ∧
      (detect_double_jpeg (.exc msg)).description ≠ "") ∧
    ((detect_splicing (.exc msg)).detected = false ∧
      (detect_splicing (.exc msg)).score = 0 ∧
      (detect_splicing (.exc msg)).description ≠ "") ∧
    ((detect_ai_generated thresholds (.exc msg)).detected = false ∧
      (detect_ai_generated thresholds (.exc msg)).score = 0 ∧
      (detect_ai_generated thresholds (.exc msg)).description ≠ "") ∧
    ((analyze_frequency_domain (.exc msg)).suspicious = false ∧
      (analyze_frequency_domain (.exc msg)).score = 0 ∧
      (analyze_frequency_domain (.exc msg)).description ≠ "") ∧
    (∀ (config : List (String × Bool)) (p : PipelineInput),
      p.loadOk = true → (analyze_image config thresholds p).error = none) := by
  refine ⟨⟨rfl, rfl, string_append_ne_empty (by decide)⟩,
    ⟨rfl, rfl, string_append_ne_empty (by decide)⟩,
    ⟨rfl, rfl, string_append_ne_empty (by decide)⟩,
    ⟨rfl, rfl, string_append_ne_empty (by decide)⟩,
    ⟨rfl, rfl, string_append_ne_empty (by decide)⟩,
    ⟨rfl, rfl, string_append_ne_empty (by decide)⟩,
    ⟨rfl, rfl, string_append_ne_empty (by decide)⟩,
    fun config p hl => ?_⟩
  rw [analyze_image_of_loadOk config thresholds p hl]
  rfl

/-- Witness for the amended C5 at a concrete failing detector and input. -/
theorem detector_failures_degrade_witness :
    (error_level_analysis [] (.exc "boom")).description ≠ "" ∧
    (analyze_image [] [] pQuiet).error = none :=
  ⟨(detector_failures_degrade_without_raising [] "boom").1.2.2,
   (detector_failures_degrade_without_raising [] "boom").2.2.2.2.2.2.2 [] pQuiet rfl⟩

/-- AI-detector input on which only the two EXIF signals can fire: sharp
texture (variance 100), low uniformity, normal sensor noise, software tag
naming an AI tool, and no camera make/model tags. -/
def aiBoth : AiData := ⟨100, 0.1, 10, some ⟨some "midjourney v6", false, false⟩⟩

/-- **C6 (counterexample).** With an AI tool named in the software tag AND
both camera tags missing, the detector adds both 0.4 and 0.15: the two
metadata bonuses are not mutually exclusive, refuting the claimed
"otherwise — only when no AI-tool name matched" gating. -/
theorem ai_metadata_bonuses_not_exclusive :
    (detect_ai_generated [] (.ok aiBoth)).score = 0.4 + 0.15 := by
  have hany : (aiSoftwareList.any fun tool =>
      strContains (strToLower "midjourney v6") tool) = true := by decide
  have hsw : (aiSwPart (some "midjourney v6")).1 = 0.4 := by
    simp only [aiSwPart, hany, if_true]
  have hcam : (aiCamPart ⟨some "midjourney v6", false, false⟩).1 = 0.15 := by
    simp [aiCamPart]
  have hexif : (aiExifPart aiBoth.exif).1 = 0.4 + 0.15 := by
    show (aiExifPart (some ⟨some "midjourney v6", false, false⟩)).1 = 0.4 + 0.15
    simp only [aiExifPart]
    rw [hsw, hcam]
  have hraw : aiScoreRaw aiBoth = 0.4 + 0.15 := by
    rw [aiScoreRaw, hexif]
    norm_num [aiBoth]
  have hscore : (detect_ai_generated [] (.ok aiBoth)).score = min 1 (aiScoreRaw aiBoth) := by
    simp only [detect_ai_generated]
    split <;> rfl
  rw [hscore, hraw]
  norm_num

/-- **C6 (amended).** The metadata signals of the AI detector are additive
and independent: a matched AI-tool name contributes 0.4 and missing camera
make and model tags contribute 0.15, each regardless of the other, and the
final score is the clamped sum of all four signals (no severity field is
set by this detector). -/
theorem ai_metadata_bonuses_additive (thresholds : List (String × ℚ)) (d : AiData) :
    (detect_ai_generated thresholds (.ok d)).score =
      min 1 ((if d.laplacianVar < 50 then (0.3 : ℚ) else 0) +
        (if 0.15 < d.uniformity then (0.3 : ℚ) else 0) +
        (if d.noiseStd < 5 then (0.25 : ℚ) else 0) +
        (match d.exif with
         | none => 0
         | some t => (aiSwPart t.software).1 + (aiCamPart t).1)) := by
  have hscore : (detect_ai_generated thresholds (.ok d)).score = min 1 (aiScoreRaw d) := by
    simp only [detect_ai_generated]
    split <;> rfl
  rw [hscore]
  unfold aiScoreRaw
  congr 1
  cases d.exif with
  | none => rfl
  | some t => rfl

/-- ELA input whose only candidate region has area exactly 100 pixels, with
a maximum difference of 50. -/
def elaExact100 : ElaData := ⟨50, fun _ => [100]⟩

/-- **C7 (counterexample).** A connected region of exactly 100 pixels is
discarded by the strict `area > 100` filter, so despite maxDifference = 50
the detector does not trigger — refuting "regions of exactly 100 pixels
qualify". -/
theorem ela_area_exactly_100_discarded :
    (error_level_analysis [] (.ok elaExact100)).suspicious = false ∧
    (error_level_analysis [] (.ok elaExact100)).regions = [] := by
  have hd : (decide ((100 : ℚ) < 100)) = false := by
    rw [decide_eq_false_iff_not]
    norm_num
  have hfilter : ([(100 : ℚ)].filter fun area => decide (100 < area)) = [] := by
    simp [List.filter, hd]
  constructor
  · simp [error_level_analysis, elaExact100, hfilter]
  · simp [error_level_analysis, elaExact100, hfilter]

/-- **C7 (amended).** The ELA detector thresholds the map at
`ela_threshold` (default 25), keeps only regions strictly larger than 100
pixels (exactly 100 is discarded), triggers exactly when maxDifference > 30
and a qualifying region exists, and then scores min(1, maxDifference/100). -/
theorem ela_trigger_and_score_formula (thresholds : List (String × ℚ)) (d : ElaData) :
    ((error_level_analysis thresholds (.ok d)).suspicious = true ↔
      (30 < d.maxDiff ∧
        (d.contourAreasAt (thrGet thresholds "ela_threshold" 25)).filter
          (fun area => 100 < area) ≠ [])) ∧
    ((error_level_analysis thresholds (.ok d)).score =
      if 30 < d.maxDiff ∧
          (d.contourAreasAt (thrGet thresholds "ela_threshold" 25)).filter
            (fun area => 100 < area) ≠ []
        then min 1 ((d.maxDiff : ℚ) / 100) else 0) ∧
    ((error_level_analysis thresholds (.ok d)).regions =
      if 30 < d.maxDiff ∧
          (d.contourAreasAt (thrGet thresholds "ela_threshold" 25)).filter
            (fun area => 100 < area) ≠ []
        then (d.contourAreasAt (thrGet thresholds "ela_threshold" 25)).filter
          (fun area => 100 < area)
        else []) := by
  simp only [error_level_analysis]
  split
  · rename_i h
    exact ⟨iff_of_true rfl h, rfl, rfl⟩
  · rename_i h
    exact ⟨iff_of_false (by simp) h, rfl, rfl⟩

/-- Every per-technique flag disabled, including names for the three
ungated techniques. -/
def cfgAllOff : List (String × Bool) :=
  [("enable_ela", false), ("enable_metadata", false), ("enable_copy_move", false),
   ("enable_noise_analysis", false), ("enable_double_jpeg", false),
   ("enable_splicing", false), ("enable_ai_generated", false), ("enable_frequency", false)]

/-- **C8 (counterexample).** With every enable flag set to `False` the
splicing, AI-generation and frequency-domain techniques still run and are
recorded in `techniques_used` — refuting "no technique runs when its flag
is disabled". -/
theorem ungated_techniques_run_with_all_flags_disabled :
    (analyze_image cfgAllOff [] pQuiet).techniques_used =
      ["Splicing Detection", "AI-Generated Detection", "Frequency Domain Analysis"] := rfl

/-- **C8 (amended).** The first five techniques (ELA, metadata, copy-move,
noise, double-JPEG) run and are recorded iff their enable flag (default
`True` when absent) is set; splicing, AI-generation and frequency-domain
always run. -/
theorem flag_gated_and_always_on_techniques (config : List (String × Bool))
    (thresholds : List (String × ℚ)) (p : PipelineInput) (hl : p.loadOk = true) :
    ("Error Level Analysis" ∈ (analyze_image config thresholds p).techniques_used ↔
      cfgGet config "enable_ela" true = true) ∧
    ("Metadata Analysis" ∈ (analyze_image config thresholds p).techniques_used ↔
      cfgGet config "enable_metadata" true = true) ∧
    ("Copy-Move Detection" ∈ (analyze_image config thresholds p).techniques_used ↔
      cfgGet config "enable_copy_move" true = true) ∧
    ("Noise Analysis" ∈ (analyze_image config thresholds p).techniques_used ↔
      cfgGet config "enable_noise_analysis" true = true) ∧
    ("JPEG Compression Analysis" ∈ (analyze_image config thresholds p).techniques_used ↔
      cfgGet config "enable_double_jpeg" true = true) ∧
    "Splicing Detection" ∈ (analyze_image config thresholds p).techniques_used ∧
    "AI-Generated Detection" ∈ (analyze_image config thresholds p).techniques_used ∧
    "Frequency Domain Analysis" ∈ (analyze_image config thresholds p).techniques_used := by
  have heq : (analyze_image config thresholds p).techniques_used = pipelineTechniques config := by
    rw [analyze_image_of_loadOk config thresholds p hl]
    rfl
  rw [heq]
  unfold pipelineTechniques
  cases h1 : cfgGet config "enable_ela" true <;>
    cases h2 : cfgGet config "enable_metadata" true <;>
    cases h3 : cfgGet config "enable_copy_move" true <;>
    cases h4 : cfgGet config "enable_noise_analysis" true <;>
    cases h5 : cfgGet config "enable_double_jpeg" true <;>
    decide

/-- Witness for the amended C8 at a concrete loadable input. -/
theorem flag_gated_and_always_on_techniques_witness :
    "Splicing Detection" ∈ (analyze_image [] [] pQuiet).techniques_used :=
  (flag_gated_and_always_on_techniques [] [] pQuiet rfl).2.2.2.2.2.1

/-- **C9.** The ELA re-encode is written to one fixed relative path,
independent of the analyzed image — a shared filesystem temp file, not an
in-memory round-trip, so concurrent analyses of different images contend for
the same file. -/
theorem ela_reencode_shares_fixed_temp_path :
    (∀ p q : String, ela_temp_path p = ela_temp_path q) ∧
    ela_temp_path "image_a.jpg" = "temp/ela_temp.jpg" ∧
    ela_temp_path "image_b.png" = "temp/ela_temp.jpg" :=
  ⟨fun _ _ => rfl, rfl, rfl⟩

/-- **C10.** Every finding in the returned report is a triggered one: each
detector's result is appended only when its trigger flag is set, so
non-triggered results (failure substitutes included) never appear. -/
theorem findings_only_triggered (config : List (String × Bool))
    (thresholds : List (String × ℚ)) (p : PipelineInput) :
    ((analyze_image config thresholds p).findings.all fun f => f.triggered) = true := by
  cases hl : p.loadOk
  · have h : (analyze_image config thresholds p).findings = [] := by
      simp [analyze_image, hl, initResults]
    rw [h]
    rfl
  · have h : (analyze_image config thresholds p).findings =
        pipelineFindings config thresholds p := by
      rw [analyze_image_of_loadOk config thresholds p hl]
      rfl
    rw [h, List.all_eq_true]
    intro f hf
    rcases mem_pipelineFindings hf with
      ⟨rfl, ht⟩ | ⟨rfl, ht⟩ | ⟨rfl, ht⟩ | ⟨rfl, ht⟩ | ⟨rfl, ht⟩ | ⟨rfl, ht⟩ | ⟨rfl, ht⟩ <;>
      exact ht
